import Mathlib

/-
Verification of the configuration resolver and connection-lifecycle state
machine of pyiron (src/pyiron/base/settings/generic.py).

The Python module keeps its configuration in a string-keyed dictionary whose
values are dynamically typed (None, strings, integers, lists).  We embed that
dictionary as an association list over an inductive `Value` type, and each
operation of the module as a Lean function over it.  Operations that can raise
a Python exception (TypeError, ValueError, IndexError, AttributeError,
NoOptionError) return `Except String`.

Filesystem-dependent pieces (`convert_path`, which calls
Path.expanduser/resolve/as_posix, and `os.path.abspath(os.path.curdir)`) are
abstracted as explicit parameters: a normalizer function `norm` and an
absolute current-directory string.  The INI parsing done by the standard
library `ConfigParser` is abstracted to the post-parse section contents, a
list of option/value string pairs queried exactly as the source queries the
parser (`has_option` / `get`).
-/

set_option autoImplicit false

namespace Pyiron

/-- Dynamically typed Python value as stored in the `_configuration` dict of
`Settings.__init__` (src lines 61-74): None, a string, an integer, or a list. -/
inductive Value where
  | vnone : Value
  | vstr : String → Value
  | vint : Int → Value
  | vlist : List Value → Value

/-- Truth of `isinstance(value, list)` for an embedded value. -/
def Value.isList : Value → Bool
  | .vlist _ => true
  | _ => false

/-- Truth of the Python comparison `v == s` against a string literal `s`. -/
def Value.eqStr : Value → String → Bool
  | .vstr t, s => t == s
  | _, _ => false

/-- Truth of the Python test `v is None`. -/
def Value.isNone : Value → Bool
  | .vnone => true
  | _ => false

/-- The `_configuration` dictionary: insertion-ordered string-keyed map. -/
abbrev Dict : Type := List (String × Value)

/-- Python dict read `d[k]`.  Every key the source reads is present in the
default dictionary, so the `Value.vnone` fallback for a missing key is never
reached on the flows modelled here (a real dict would raise KeyError). -/
def Dict.getV : Dict → String → Value
  | [], _ => Value.vnone
  | (k', v) :: rest, k => if k' = k then v else Dict.getV rest k

/-- Python dict write `d[k] = v`: replace in place, or append a new key. -/
def Dict.set : Dict → String → Value → Dict
  | [], k, v => [(k, v)]
  | (k', v') :: rest, k, v =>
      if k' = k then (k, v) :: rest else (k', v') :: Dict.set rest k v

/-- Contents of the configuration-file section used by `_config_parse_file`:
the option/value pairs of the first declared section (or the implicit DEFAULT
section).  `ConfigParser` details (INI syntax, `;` inline comments, option-name
case folding) are abstracted away; options are keyed by the names the source
queries. -/
abbrev Options : Type := List (String × String)

/-- Truth of `parser.has_option(section, k)` combined with
`parser.get(section, k)`: the first value bound to option `k`, if any. -/
def Options.get : Options → String → Option String
  | [], _ => none
  | (k', v) :: rest, k => if k' = k then some v else Options.get rest k

/-- Default configuration dictionary built at the start of `Settings.__init__`
(src lines 61-74). -/
def defaultConfig : Dict :=
  [("user", Value.vstr "pyiron"),
   ("resource_paths", Value.vlist [Value.vstr "~/pyiron/resources"]),
   ("project_paths", Value.vlist [Value.vstr "~/pyiron/projects"]),
   ("sql_connection_string", Value.vnone),
   ("sql_table_name", Value.vstr "jobs_pyiron"),
   ("sql_view_connection_string", Value.vnone),
   ("sql_view_table_name", Value.vnone),
   ("sql_view_user", Value.vnone),
   ("sql_view_user_key", Value.vnone),
   ("sql_file", Value.vnone),
   ("sql_host", Value.vnone),
   ("sql_type", Value.vstr "SQLite"),
   ("sql_user_key", Value.vnone),
   ("sql_database", Value.vnone)]

/-- Configuration-file discovery, src lines 75-79.  The source binds
`environment_keys = os.environ.keys()` and then evaluates
`environment_keys['PYIRONCONFIG']`: subscripting the keys collection with a
string raises TypeError (it is not `os.environ['PYIRONCONFIG']`).  The
environment is a list of name/value pairs; `home` stands for the expansion of
`~` so that `os.path.expanduser(os.path.join("~", ".pyiron"))` is
`home ++ "/.pyiron"`. -/
def config_file_of_env (home : String) (env : List (String × String)) :
    Except String String :=
  let environment_keys := env.map Prod.fst
  if environment_keys.contains "PYIRONCONFIG" then
    Except.error "TypeError: environment key collection is not subscriptable by a string"
  else
    Except.ok (home ++ "/.pyiron")

/-- Conversion `self._configuration['sql_type']` string extraction; Python
string concatenation with a non-string raises TypeError. -/
def asStr : Value → Except String String
  | .vstr s => Except.ok s
  | _ => Except.error "TypeError: expected a string value"

/-- Extraction of a list of strings from a dynamic value (iterating a
non-list, or an element that is not a string where a string operation is
applied, raises TypeError in the source flows modelled here). -/
def asStrList : Value → Except String (List String)
  | .vlist vs => vs.mapM asStr
  | _ => Except.error "TypeError: expected a list value"

/-- Body of `_config_parse_file` (src lines 286-326) on the abstracted section
contents, threading the configuration dictionary.  Note two faithful oddities
of the source: the missing-project-path branch builds
`ValueError('No project path identified!')` without raising it (line 297), so
it is a no-op; and the Postgres/MySQL branch raises ValueError when any of
USER, PASSWD, HOST, NAME is absent (lines 310-312). -/
def config_parse_file (norm : String → String) (opts : Options) (cfg : Dict) :
    Except String Dict := do
  let cfg :=
    match opts.get "TYPE" with
    | some t => cfg.set "sql_type" (Value.vstr t)
    | none => cfg
  let cfg :=
    match opts.get "PROJECT_PATHS" with
    | some s =>
        cfg.set "project_paths"
          (Value.vlist (((s.splitOn ",").map (fun c => norm c.trim)).map Value.vstr))
    | none =>
        match opts.get "TOP_LEVEL_DIRS" with
        | some s =>
            cfg.set "project_paths"
              (Value.vlist (((s.splitOn ",").map (fun c => norm c.trim)).map Value.vstr))
        | none => cfg
  let cfg :=
    match opts.get "RESOURCE_PATHS" with
    | some s =>
        cfg.set "resource_paths"
          (Value.vlist (((s.splitOn ",").map (fun c => norm c.trim)).map Value.vstr))
    | none => cfg
  let cfg ←
    (if (Dict.getV cfg "sql_type").eqStr "Postgres"
        || (Dict.getV cfg "sql_type").eqStr "MySQL" then do
      let cfg ←
        (match opts.get "USER", opts.get "PASSWD", opts.get "HOST", opts.get "NAME" with
         | some u, some p, some h, some n =>
             Except.ok ((((cfg.set "user" (Value.vstr u)).set
                 "sql_user_key" (Value.vstr p)).set
                 "sql_host" (Value.vstr h)).set
                 "sql_database" (Value.vstr n) |>.set "sql_file" Value.vnone)
         | _, _, _, _ =>
             Except.error "ValueError: If type Postgres or MySQL are selected the options USER, PASSWD, HOST and NAME are required in the configuration file.")
      match opts.get "VIEWERUSER", opts.get "VIEWERPASSWD", opts.get "VIEWER_TABLE" with
      | some vu, some vp, some vt =>
          Except.ok (((cfg.set "sql_view_table_name" (Value.vstr vt)).set
              "sql_view_user" (Value.vstr vu)).set
              "sql_view_user_key" (Value.vstr vp))
      | _, _, _ => Except.ok cfg
    else if (Dict.getV cfg "sql_type").eqStr "SQLalchemy" then
      match opts.get "CONNECTION" with
      | some c => Except.ok (cfg.set "sql_connection_string" (Value.vstr c))
      | none => Except.error "NoOptionError: no option CONNECTION in section"
    else
      let cfg :=
        match opts.get "FILE" with
        | some f => cfg.set "sql_file" (Value.vstr (f.replace "\\" "/"))
        | none => cfg
      match opts.get "DATABASE_FILE" with
      | some f => Except.ok (cfg.set "sql_file" (Value.vstr (f.replace "\\" "/")))
      | none => Except.ok cfg)
  match opts.get "JOB_TABLE" with
  | some t => Except.ok (cfg.set "sql_table_name" (Value.vstr t))
  | none => Except.ok cfg

/-- One iteration of the override merge loop of `Settings.__init__`
(src lines 98-105).  The final `else` arm of the source builds
`TypeError('Config dictionary parameter type not recognized', ...)` WITHOUT
raising it, so a value of any other type for `resource_paths` or
`project_paths` is silently ignored. -/
def applyConfigEntry (c : Dict) (kv : String × Value) : Dict :=
  if (kv.1 ≠ "resource_paths" ∧ kv.1 ≠ "project_paths") ∨ kv.2.isList then
    c.set kv.1 kv.2
  else
    match kv.2 with
    | .vstr s => c.set kv.1 (Value.vlist [Value.vstr s])
    | _ => c

/-- Override merge `for key, value in config.items(): ...`
(src lines 98-105): the caller-supplied dictionary overwrites everything. -/
def applyConfig (cfg : Dict) (config : Dict) : Dict :=
  config.foldl applyConfigEntry cfg

/-- Normalization of one project path (src line 107):
`convert_path(path) + '/' if path[-1] != '/' else convert_path(path)`;
`path[-1]` on an empty string raises IndexError. -/
def addTrailingSlash (norm : String → String) (path : String) :
    Except String String :=
  if path = "" then Except.error "IndexError: string index out of range"
  else if path.back ≠ '/' then Except.ok (norm path ++ "/")
  else Except.ok (norm path)

/-- Path normalization step of `Settings.__init__` (src lines 107-110):
project paths are converted and trailing-slash-terminated, resource paths are
converted. -/
def normalizePaths (norm : String → String) (cfg : Dict) : Except String Dict := do
  let pp ← asStrList (Dict.getV cfg "project_paths")
  let pp ← pp.mapM (addTrailingSlash norm)
  let cfg := Dict.set cfg "project_paths" (Value.vlist (pp.map Value.vstr))
  let rp ← asStrList (Dict.getV cfg "resource_paths")
  Except.ok (Dict.set cfg "resource_paths" (Value.vlist ((rp.map norm).map Value.vstr)))

/-- Connection-string construction of `Settings.__init__` (src lines 113-137).
The Postgres branch also builds the viewer string when `sql_view_user` is not
None; the MySQL branch builds only the primary string; every other `sql_type`
takes the SQLite branch, deriving `sql_file` as
`'/'.join([resource_paths[0], 'sqlite.db'])` when it is None.  The
`os.makedirs` call for a missing database directory (src lines 133-135) is a
filesystem side effect with no influence on the dictionary and is omitted. -/
def buildConnectionStrings (cfg : Dict) : Except String Dict := do
  if (Dict.getV cfg "sql_type").eqStr "Postgres" then
    let u ← asStr (Dict.getV cfg "user")
    let k ← asStr (Dict.getV cfg "sql_user_key")
    let h ← asStr (Dict.getV cfg "sql_host")
    let d ← asStr (Dict.getV cfg "sql_database")
    let cfg := Dict.set cfg "sql_connection_string"
      (Value.vstr ("postgresql://" ++ u ++ ":" ++ k ++ "@" ++ h ++ "/" ++ d))
    if !(Dict.getV cfg "sql_view_user").isNone then
      let vu ← asStr (Dict.getV cfg "sql_view_user")
      let vk ← asStr (Dict.getV cfg "sql_view_user_key")
      Except.ok (Dict.set cfg "sql_view_connection_string"
        (Value.vstr ("postgresql://" ++ vu ++ ":" ++ vk ++ "@" ++ h ++ "/" ++ d)))
    else
      Except.ok cfg
  else if (Dict.getV cfg "sql_type").eqStr "MySQL" then
    let u ← asStr (Dict.getV cfg "user")
    let k ← asStr (Dict.getV cfg "sql_user_key")
    let h ← asStr (Dict.getV cfg "sql_host")
    let d ← asStr (Dict.getV cfg "sql_database")
    Except.ok (Dict.set cfg "sql_connection_string"
      (Value.vstr ("mysql+pymysql://" ++ u ++ ":" ++ k ++ "@" ++ h ++ "/" ++ d)))
  else
    let cfg ←
      (if (Dict.getV cfg "sql_file").isNone then
        match Dict.getV cfg "resource_paths" with
        | Value.vlist [] => Except.error "IndexError: list index out of range"
        | Value.vlist (v0 :: _) => do
            let r0 ← asStr v0
            Except.ok (Dict.set cfg "sql_file" (Value.vstr (r0 ++ "/sqlite.db")))
        | _ => Except.error "TypeError: value is not subscriptable"
      else Except.ok cfg)
    let f ← asStr (Dict.getV cfg "sql_file")
    Except.ok (Dict.set cfg "sql_connection_string"
      (Value.vstr ("sqlite:///" ++ f.replace "\\" "/")))

/-- Configuration resolution of `Settings.__init__` (src lines 59-137):
defaults, then the configuration file when one exists (`fileOpts = some _`;
`fileOpts = none` models the no-file path taken under a CI marker variable,
where the interactive installer is skipped), then the caller-supplied override
dictionary (`config`, when it is a dict), then path normalization and
connection-string construction. -/
def settings_init (norm : String → String) (fileOpts : Option Options)
    (config : Option Dict) : Except String Dict := do
  let cfg := defaultConfig
  let cfg ←
    match fileOpts with
    | some opts => config_parse_file norm opts cfg
    | none => Except.ok cfg
  let cfg :=
    match config with
    | some d => applyConfig cfg d
    | none => cfg
  let cfg ← normalizePaths norm cfg
  buildConnectionStrings cfg

/-- Python substring containment `needle in hay` on strings. -/
def str_in (needle hay : String) : Bool :=
  decide (needle.data <:+: hay.data)

/-- Membership check `Settings.top_path` (src lines 242-257): append a
trailing slash to the query when missing, then return the first configured
project path `p` with `p in full_path` (Python SUBSTRING containment), else
raise ValueError. -/
def top_path (project_paths : List String) (full_path : String) :
    Except String String :=
  if full_path = "" then Except.error "IndexError: string index out of range"
  else
    let fp := if full_path.back ≠ '/' then full_path ++ "/" else full_path
    match project_paths.find? (fun p => str_in p fp) with
    | some p => Except.ok p
    | none =>
        Except.error ("ValueError: the current path " ++ fp ++
          " is not included in the .pyiron configuration.")

/-- Modelled from the spec: the database-client collaborator
(`pyiron.base.database.generic.DatabaseAccess`, not under src/).  Per §6, it
accepts a connection string and a table name and exposes an open/close
contract plus a `viewerMode` flag that the ConnectionManager toggles; only the
ConnectionManager ever sets the flag, so a freshly created handle carries
`viewer_mode = false`. -/
structure DatabaseAccess where
  connection_string : String
  table_name : Option String
  viewer_mode : Bool

/-- The fields of the resolved configuration dictionary that the connection
state machine of `Settings` reads (src lines 173-232): after resolution the
primary connection string and table name are strings, while the viewer
connection string and viewer table name may be None. -/
structure ConnCfg where
  sql_connection_string : String
  sql_table_name : String
  sql_view_connection_string : Option String
  sql_view_table_name : Option String

/-- Mutable connection state of `Settings`: `self._database` (an open handle
or None) and `self._use_local_database` (src lines 139-140 initialize them to
None and False). -/
structure SettingsState where
  database : Option DatabaseAccess
  use_local_database : Bool

/-- Initial connection state set at the end of `Settings.__init__`
(src lines 139-140). -/
def initialState : SettingsState :=
  { database := none, use_local_database := false }

/-- Method `Settings.close_connection` (src lines 234-240): close the open
handle if any; afterwards `_database` is None either way. -/
def close_connection (s : SettingsState) : SettingsState :=
  { s with database := none }

/-- Method `Settings.open_connection` (src lines 173-180): open a handle on
the primary connection string and table name ONLY when `_database is None`;
with a handle already open the call does nothing. -/
def open_connection (cfg : ConnCfg) (s : SettingsState) : SettingsState :=
  match s.database with
  | none =>
      let db : DatabaseAccess := ⟨cfg.sql_connection_string, some cfg.sql_table_name, false⟩
      { s with database := some db }
  | some _ => s

/-- Truth of `os.path.isabs` on POSIX: the path starts with a slash. -/
def isAbs (p : String) : Bool :=
  match p.data with
  | '/' :: _ => true
  | _ => false

/-- POSIX `os.path.join` for two components: an absolute second component
discards the first; otherwise the components are joined with a single `/`
(none is inserted after an empty or slash-terminated first component). -/
def ospath_join (a b : String) : String :=
  if isAbs b then b
  else if a = "" ∨ a.back = '/' then a ++ b
  else a ++ "/" ++ b

/-- Method `Settings.switch_to_local_database` (src lines 182-193).
`abs_curdir` stands for `os.path.abspath(os.path.curdir)`.  When not already
in local mode: resolve the file name, close the previous handle, open a new
handle on `'sqlite:///' + file_name` with the primary table name, and set
`_use_local_database`.  Otherwise report (the printed message is returned as
the second component). -/
def switch_to_local_database (cfg : ConnCfg) (file_name : String)
    (cwd : Option String) (abs_curdir : String) (s : SettingsState) :
    SettingsState × Option String :=
  if !s.use_local_database then
    let fn :=
      match cwd with
      | none => if !isAbs file_name then ospath_join abs_curdir file_name else file_name
      | some c => ospath_join c file_name
    let s := close_connection s
    ({ s with
        database := some ⟨"sqlite:///" ++ fn, some cfg.sql_table_name, false⟩,
        use_local_database := true }, none)
  else
    (s, some "Database is already in local mode!")

/-- Method `Settings.switch_to_central_database` (src lines 195-202): when in
local mode, close the handle and reopen on the primary connection string and
table name; otherwise report. -/
def switch_to_central_database (cfg : ConnCfg) (s : SettingsState) :
    SettingsState × Option String :=
  if s.use_local_database then
    let s := close_connection s
    ({ s with
        database := some ⟨cfg.sql_connection_string, some cfg.sql_table_name, false⟩,
        use_local_database := false }, none)
  else
    (s, some "Database is already in central mode!")

/-- Method `Settings.switch_to_viewer_mode` (src lines 204-217).  When the
viewer connection string is present the source immediately reads
`self._database.viewer_mode`: with no open handle (`_database is None`) that
dereference raises AttributeError.  With an open non-viewer handle it reopens
on the viewer connection string and viewer table name and sets the viewer
flag; an already-viewer handle is reported.  Without a viewer connection
string the call only reports. -/
def switch_to_viewer_mode (cfg : ConnCfg) (s : SettingsState) :
    Except String (SettingsState × Option String) :=
  match cfg.sql_view_connection_string with
  | some vs =>
      match s.database with
      | none => Except.error "AttributeError: NoneType object has no attribute viewer_mode"
      | some db =>
          if !db.viewer_mode then
            Except.ok ({ database := some ⟨vs, cfg.sql_view_table_name, true⟩,
                         use_local_database := s.use_local_database }, none)
          else
            Except.ok (s, some "Database is already in viewer mode!")
  | none =>
      Except.ok (s, some "Viewer Mode is not available on this pyiron installation.")

/-- Method `Settings.switch_to_user_mode` (src lines 219-232).  Same handle
dereference as `switch_to_viewer_mode`.  With an open viewer-flagged handle it
reopens on the PRIMARY connection string and table name, and then the source
line 228 assigns `self._database.viewer_mode = True` again — the reopened
"user mode" handle keeps the viewer flag set. -/
def switch_to_user_mode (cfg : ConnCfg) (s : SettingsState) :
    Except String (SettingsState × Option String) :=
  match cfg.sql_view_connection_string with
  | some _ =>
      match s.database with
      | none => Except.error "AttributeError: NoneType object has no attribute viewer_mode"
      | some db =>
          if db.viewer_mode then
            let ndb : DatabaseAccess := ⟨cfg.sql_connection_string, some cfg.sql_table_name, true⟩
            Except.ok ({ database := some ndb,
                         use_local_database := s.use_local_database }, none)
          else
            Except.ok (s, some "Database is already in user mode!")
  | none =>
      Except.ok (s, some "Viewer Mode is not available on this pyiron installation.")

set_option maxHeartbeats 2000000

/-- Writing a key and reading it back yields the written value. -/
theorem Dict.getV_set (d : Dict) (k : String) (v : Value) :
    Dict.getV (Dict.set d k v) k = v := by
  induction d with
  | nil => simp [Dict.set, Dict.getV]
  | cons hd tl ih =>
      obtain ⟨k2, v2⟩ := hd
      by_cases h : k2 = k
      · simp [Dict.set, Dict.getV, h]
      · simp [Dict.set, Dict.getV, h, ih]

/-- Writing one key leaves every other key unchanged. -/
theorem Dict.getV_set_ne (d : Dict) (k k2 : String) (v : Value) (h : k ≠ k2) :
    Dict.getV (Dict.set d k2 v) k = Dict.getV d k := by
  induction d with
  | nil => simp [Dict.set, Dict.getV, Ne.symm h]
  | cons hd tl ih =>
      obtain ⟨k3, v3⟩ := hd
      by_cases h3 : k3 = k2
      · subst h3
        simp [Dict.set, Dict.getV, Ne.symm h]
      · simp [Dict.set, Dict.getV, h3, ih]

/-- A single-entry override dictionary stores its value for every key other
than the two path-list keys (src lines 98-101). -/
theorem applyConfig_singleton (d : Dict) (k : String) (v : Value)
    (hr : k ≠ "resource_paths") (hp : k ≠ "project_paths") :
    Dict.getV (applyConfig d [(k, v)]) k = v := by
  have hc : ((k ≠ "resource_paths" ∧ k ≠ "project_paths") ∨ v.isList = true) :=
    Or.inl ⟨hr, hp⟩
  simp [applyConfig, applyConfigEntry, if_pos hc, Dict.getV_set]

/-- On the SQLite branch with no configured file, connection-string
construction derives `sql_file` from the first resource path and the
`sqlite:///` connection string from it (src lines 129-137). -/
theorem buildConnectionStrings_sqlite (cfg : Dict) (r0 : String) (vs : List Value)
    (h1 : Dict.getV cfg "sql_type" = Value.vstr "SQLite")
    (h2 : Dict.getV cfg "sql_file" = Value.vnone)
    (h3 : Dict.getV cfg "resource_paths" = Value.vlist (Value.vstr r0 :: vs)) :
    buildConnectionStrings cfg
      = Except.ok (Dict.set
          (Dict.set cfg "sql_file" (Value.vstr (r0 ++ "/sqlite.db")))
          "sql_connection_string"
          (Value.vstr ("sqlite:///" ++ (r0 ++ "/sqlite.db").replace "\\" "/"))) := by
  unfold buildConnectionStrings
  rw [h1, h2, h3]
  simp [Value.eqStr, Value.isNone, asStr, bind, Except.bind, Dict.getV_set]

set_option smartUnfolding false

/-- C1: the caller-supplied overrides mapping has the highest precedence and
configuration-file values beat the built-in defaults.  With a file supplying
`USER = alice` (on the Postgres backend, the one file branch that sets the
`user` key) and an override `{user: bob}`, resolution yields `user == bob`;
with no override it yields `user == alice` (not the default `pyiron`); and at
the merge step the override value is stored for every key other than the two
path-list keys, whatever the file left there. -/
theorem C1_override_precedence (norm : String → String)
    (alice bob pw host db : String) :
    ((settings_init norm
        (some [("TYPE", "Postgres"), ("USER", alice), ("PASSWD", pw),
               ("HOST", host), ("NAME", db)])
        (some [("user", Value.vstr bob)])).map (fun c => Dict.getV c "user")
      = Except.ok (Value.vstr bob))
  ∧ ((settings_init norm
        (some [("TYPE", "Postgres"), ("USER", alice), ("PASSWD", pw),
               ("HOST", host), ("NAME", db)])
        none).map (fun c => Dict.getV c "user")
      = Except.ok (Value.vstr alice))
  ∧ (∀ (d : Dict) (k : String) (v : Value),
        k ≠ "resource_paths" → k ≠ "project_paths" →
        Dict.getV (applyConfig d [(k, v)]) k = v) :=
  ⟨rfl, rfl, fun d k v hr hp => applyConfig_singleton d k v hr hp⟩

/-- Witness for C1 at concrete inputs: an override of the `user` key lands in
the configuration dictionary. -/
theorem C1_override_precedence_witness :
    Dict.getV (applyConfig defaultConfig [("user", Value.vstr "bob")]) "user"
      = Value.vstr "bob" :=
  (C1_override_precedence id "alice" "bob" "pw" "h" "d").2.2
    defaultConfig "user" (Value.vstr "bob") (by decide) (by decide)

/-- C2: the claim says an override value for `project_paths`/`resource_paths`
that is neither a list nor a string must fail resolution with a TypeMismatch
condition.  The source (line 105) only CONSTRUCTS
`TypeError('Config dictionary parameter type not recognized', ...)` without
raising it, so resolution succeeds and silently keeps the previous value:
with override `{project_paths: 5}` the resolved `project_paths` is still the
normalized default.  The scalar-wrapping half of the claim does hold:
`{project_paths: "/x"}` resolves to the normalized one-element list. -/
theorem C2_type_mismatch_not_raised (norm : String → String) :
    ((settings_init norm none (some [("project_paths", Value.vint 5)])).map
        (fun c => Dict.getV c "project_paths")
      = Except.ok (Value.vlist [Value.vstr (norm "~/pyiron/projects" ++ "/")]))
  ∧ ((settings_init norm none (some [("project_paths", Value.vstr "/x")])).map
        (fun c => Dict.getV c "project_paths")
      = Except.ok (Value.vlist [Value.vstr (norm "/x" ++ "/")])) :=
  ⟨rfl, rfl⟩

/-- C3: the claim says that when `PYIRONCONFIG` is set its VALUE names the
configuration file.  The source (line 77) instead subscripts
`os.environ.keys()` with the string `'PYIRONCONFIG'`, which raises TypeError,
so with the variable set the path computation fails instead of producing
`/tmp/config`; only the unset case reaches the default `<home>/.pyiron`. -/
theorem C3_pyironconfig_type_error :
    (config_file_of_env "/home/u" [("PYIRONCONFIG", "/tmp/config")]
      = Except.error "TypeError: environment key collection is not subscriptable by a string")
  ∧ (config_file_of_env "/home/u" [("PATH", "/usr/bin")]
      = Except.ok "/home/u/.pyiron") :=
  ⟨rfl, rfl⟩

/-- C4: with backend SQLite and no configured `sql_file`, the file path is
derived as `<first resource path>/sqlite.db` and the primary connection string
is exactly `sqlite:///` followed by that path with backslashes replaced by
forward slashes — first for an arbitrary resolved dictionary entering
connection-string construction, then end to end through resolution. -/
theorem C4_sqlite_connection_string (norm : String → String) (r : String)
    (cfg : Dict) (r0 : String) (vs : List Value) :
    (Dict.getV cfg "sql_type" = Value.vstr "SQLite" →
     Dict.getV cfg "sql_file" = Value.vnone →
     Dict.getV cfg "resource_paths" = Value.vlist (Value.vstr r0 :: vs) →
     buildConnectionStrings cfg
       = Except.ok (Dict.set
           (Dict.set cfg "sql_file" (Value.vstr (r0 ++ "/sqlite.db")))
           "sql_connection_string"
           (Value.vstr ("sqlite:///" ++ (r0 ++ "/sqlite.db").replace "\\" "/"))))
  ∧ ((settings_init norm none (some [("resource_paths", Value.vstr r)])).map
        (fun c => (Dict.getV c "sql_file", Dict.getV c "sql_connection_string"))
      = Except.ok (Value.vstr (norm r ++ "/sqlite.db"),
          Value.vstr ("sqlite:///" ++ (norm r ++ "/sqlite.db").replace "\\" "/"))) :=
  ⟨fun h1 h2 h3 => buildConnectionStrings_sqlite cfg r0 vs h1 h2 h3, rfl⟩

/-- Witness for C4 at the concrete default dictionary: its backend is SQLite
with no file configured, and construction derives the sqlite.db path. -/
theorem C4_sqlite_connection_string_witness :
    buildConnectionStrings defaultConfig
      = Except.ok (Dict.set
          (Dict.set defaultConfig "sql_file"
            (Value.vstr ("~/pyiron/resources" ++ "/sqlite.db")))
          "sql_connection_string"
          (Value.vstr ("sqlite:///" ++
            ("~/pyiron/resources" ++ "/sqlite.db").replace "\\" "/"))) :=
  (C4_sqlite_connection_string id "/x" defaultConfig "~/pyiron/resources" []).1
    rfl rfl rfl

/-- C5 counterexample: with backend MySQL and the full viewer
sub-configuration supplied (VIEWERUSER, VIEWERPASSWD, VIEWER_TABLE), the
resolved viewer connection string is ABSENT (None) although the viewer user
was recorded — refuting the claim that the viewer string is present whenever
the viewer sub-configuration is supplied, for both Postgres and MySQL. -/
theorem C5_counterexample :
    (settings_init id
        (some [("TYPE", "MySQL"), ("USER", "u"), ("PASSWD", "p"), ("HOST", "h"),
               ("NAME", "d"), ("VIEWERUSER", "vu"), ("VIEWERPASSWD", "vp"),
               ("VIEWER_TABLE", "vt")])
        none).map
      (fun c => (Dict.getV c "sql_view_connection_string", Dict.getV c "sql_view_user"))
      = Except.ok (Value.vnone, Value.vstr "vu") :=
  rfl

/-- C5 amended: the viewer connection string is built only on the Postgres
branch.  For Postgres with the viewer sub-configuration supplied it is the
postgresql string with the viewer credentials substituted; for MySQL it stays
absent even though the viewer fields were recorded; for Postgres without the
viewer sub-configuration it is absent. -/
theorem C5_viewer_string_postgres_only (norm : String → String)
    (u p h d vu vp vt : String) :
    ((settings_init norm
        (some [("TYPE", "Postgres"), ("USER", u), ("PASSWD", p), ("HOST", h),
               ("NAME", d), ("VIEWERUSER", vu), ("VIEWERPASSWD", vp),
               ("VIEWER_TABLE", vt)])
        none).map (fun c => Dict.getV c "sql_view_connection_string")
      = Except.ok (Value.vstr ("postgresql://" ++ vu ++ ":" ++ vp ++ "@" ++ h ++ "/" ++ d)))
  ∧ ((settings_init norm
        (some [("TYPE", "MySQL"), ("USER", u), ("PASSWD", p), ("HOST", h),
               ("NAME", d), ("VIEWERUSER", vu), ("VIEWERPASSWD", vp),
               ("VIEWER_TABLE", vt)])
        none).map
        (fun c => (Dict.getV c "sql_view_connection_string", Dict.getV c "sql_view_user"))
      = Except.ok (Value.vnone, Value.vstr vu))
  ∧ ((settings_init norm
        (some [("TYPE", "Postgres"), ("USER", u), ("PASSWD", p), ("HOST", h),
               ("NAME", d)])
        none).map (fun c => Dict.getV c "sql_view_connection_string")
      = Except.ok Value.vnone) :=
  ⟨rfl, rfl, rfl⟩

set_option smartUnfolding true

/-- C6: the claim (and the docstring of `top_path`) require a boundary-exact
prefix match; the source line 255 tests `path in full_path`, Python SUBSTRING
containment.  With configured root `/a/b/` the query `/x/a/b/c` — of which
`/a/b/` is an interior substring but NOT a prefix — is accepted instead of
failing with PathNotConfigured; an unrelated path still fails, and a genuine
subdirectory is still accepted. -/
theorem C6_substring_match_not_prefix :
    (top_path ["/a/b/"] "/x/a/b/c" = Except.ok "/a/b/")
  ∧ ¬ ("/a/b/".data <+: "/x/a/b/c/".data)
  ∧ (top_path ["/a/b/"] "/y/z"
      = Except.error "ValueError: the current path /y/z/ is not included in the .pyiron configuration.")
  ∧ (top_path ["/a/b/"] "/a/b/c" = Except.ok "/a/b/") :=
  ⟨rfl, by decide, rfl, rfl⟩

/-- C7: the claim says `switchToUser()` from ViewerAsReader opens a handle on
the primary connection string and table name whose mode is USER (not
viewer/read-only).  The source does reopen on the primary string and table,
but line 228 then assigns `viewer_mode = True`, so the resulting handle keeps
the viewer flag set — contradicting the user-mode half of the claim. -/
theorem C7_user_mode_keeps_viewer_flag (prim table vtbl conn v : String)
    (t : Option String) (ul : Bool) :
    switch_to_user_mode ⟨prim, table, some v, some vtbl⟩ ⟨some ⟨conn, t, true⟩, ul⟩
      = Except.ok (⟨some ⟨prim, some table, true⟩, ul⟩, none) :=
  rfl

/-- C8 counterexample: from Disconnected (no open handle) with the viewer
connection string present, `switchToViewer()` dereferences
`self._database.viewer_mode` on None and raises AttributeError — refuting the
claim that the operation never dereferences an absent handle. -/
theorem C8_counterexample :
    switch_to_viewer_mode ⟨"postgresql://u:p@h/d", "jobs_pyiron", some "postgresql://v:k@h/d", some "vt"⟩
        ⟨none, false⟩
      = Except.error "AttributeError: NoneType object has no attribute viewer_mode" :=
  rfl

/-- C8 amended: when the viewer connection string is absent, `switchToViewer()`
reports viewer-unavailable and no-ops from EVERY state without touching the
handle (never raises); when the viewer string is present and a handle is open,
it transitions to the viewer connection (ViewerAsReader) if the handle is not
already in viewer mode, and reports already-in-mode otherwise.  (From
Disconnected with the viewer string present it instead raises AttributeError,
per the counterexample.) -/
theorem C8_switch_to_viewer_amended (cfg : ConnCfg) (s : SettingsState) :
    (cfg.sql_view_connection_string = none →
        switch_to_viewer_mode cfg s
          = Except.ok (s, some "Viewer Mode is not available on this pyiron installation."))
  ∧ (∀ v db, cfg.sql_view_connection_string = some v → s.database = some db →
        db.viewer_mode = false →
        switch_to_viewer_mode cfg s
          = Except.ok (⟨some ⟨v, cfg.sql_view_table_name, true⟩, s.use_local_database⟩, none))
  ∧ (∀ v db, cfg.sql_view_connection_string = some v → s.database = some db →
        db.viewer_mode = true →
        switch_to_viewer_mode cfg s
          = Except.ok (s, some "Database is already in viewer mode!")) := by
  refine ⟨?_, ?_, ?_⟩
  · intro h
    unfold switch_to_viewer_mode
    rw [h]
  · intro v db hv hdb hflag
    unfold switch_to_viewer_mode
    rw [hv, hdb]
    simp [hflag]
  · intro v db hv hdb hflag
    unfold switch_to_viewer_mode
    rw [hv, hdb]
    simp [hflag]

/-- Witness for C8 amended: with no viewer string configured the call is a
reported no-op from the Disconnected state. -/
theorem C8_switch_to_viewer_amended_witness :
    switch_to_viewer_mode ⟨"postgresql://u:p@h/d", "jobs_pyiron", none, none⟩ ⟨none, false⟩
      = Except.ok (⟨none, false⟩, some "Viewer Mode is not available on this pyiron installation.") :=
  (C8_switch_to_viewer_amended ⟨"postgresql://u:p@h/d", "jobs_pyiron", none, none⟩
    ⟨none, false⟩).1 rfl

/-- C9 counterexample: in state Local (an open local handle), `openPrimary()`
leaves the state completely unchanged — the handle still points at the local
sqlite file, not at the primary connection string — refuting the claim that it
transitions to Central from every state. -/
theorem C9_counterexample :
    open_connection ⟨"postgresql://u:p@h/d", "jobs_pyiron", none, none⟩
        ⟨some ⟨"sqlite:///a.db", some "jobs_pyiron", false⟩, true⟩
      = ⟨some ⟨"sqlite:///a.db", some "jobs_pyiron", false⟩, true⟩ :=
  rfl

/-- C9 amended: `openPrimary()` opens a handle on the primary connection
string and primary table name only when no handle is open (from Disconnected);
whenever any handle is already open — including Local — the call is a no-op
that leaves the state unchanged. -/
theorem C9_open_connection_amended (cfg : ConnCfg) (s : SettingsState) :
    (s.database = none →
        open_connection cfg s
          = ⟨some ⟨cfg.sql_connection_string, some cfg.sql_table_name, false⟩, s.use_local_database⟩)
  ∧ (∀ db, s.database = some db → open_connection cfg s = s) := by
  constructor
  · intro h
    unfold open_connection
    rw [h]
  · intro db h
    unfold open_connection
    rw [h]

/-- Witness for C9 amended: from Disconnected the primary connection is
opened. -/
theorem C9_open_connection_amended_witness :
    open_connection ⟨"postgresql://u:p@h/d", "jobs_pyiron", none, none⟩ ⟨none, false⟩
      = ⟨some ⟨"postgresql://u:p@h/d", some "jobs_pyiron", false⟩, false⟩ :=
  (C9_open_connection_amended ⟨"postgresql://u:p@h/d", "jobs_pyiron", none, none⟩
    ⟨none, false⟩).1 rfl

/-- C10: starting from Disconnected, `switchToLocal("a.db")` opens a local
sqlite handle (the relative name resolved against the absolute current
directory) and moves to Local; repeating the call reports already-in-local and
changes nothing; `switchToCentral()` then replaces the local handle with one
on the primary connection string and table name, leaving local mode. -/
theorem C10_local_central_cycle (cfg : ConnCfg) (curdir : String) :
    (switch_to_local_database cfg "a.db" none curdir initialState
      = (⟨some ⟨"sqlite:///" ++ ospath_join curdir "a.db", some cfg.sql_table_name, false⟩, true⟩, none))
  ∧ (switch_to_local_database cfg "a.db" none curdir
        ⟨some ⟨"sqlite:///" ++ ospath_join curdir "a.db", some cfg.sql_table_name, false⟩, true⟩
      = (⟨some ⟨"sqlite:///" ++ ospath_join curdir "a.db", some cfg.sql_table_name, false⟩, true⟩,
         some "Database is already in local mode!"))
  ∧ (switch_to_central_database cfg
        ⟨some ⟨"sqlite:///" ++ ospath_join curdir "a.db", some cfg.sql_table_name, false⟩, true⟩
      = (⟨some ⟨cfg.sql_connection_string, some cfg.sql_table_name, false⟩, false⟩, none)) :=
  ⟨rfl, rfl, rfl⟩

end Pyiron
